import Mathlib

/-
  Verification of the conference-networking bot (Node.js + Telegram + MongoDB
  + Socket.IO) against its design specification.

  The development shallowly embeds the relevant source files:
  - src/lib/realtime.js            (emitToConference, setIO)
  - src/services/slide.service.js  (assertConferenceAdmin, setSlide, clearSlide)
  - src/services/matching.service  (searchProfiles)
  - src/services/profile.service   (upsertProfileForConference)
  - src/telegram/bot.js            (session maps, flow starters, text dispatch,
                                    edit-poll text step)
  - the poll vote operation, modelled from the spec (its service file is not
    part of the embedded sources).

  Databases are lists of records, Mongo documents are structures, JS falsy
  checks on strings are explicit comparisons with "", and fallible operations
  return Except String.
-/

namespace SocialConnection

/- ===================== JS string semantics helpers ===================== -/

/-- JS String.prototype.toLowerCase restricted to the alphabets this program
compares (ASCII letters and the Russian alphabet used by the cancel token). -/
def jsCharLower (c : Char) : Char :=
  if 'A' ≤ c ∧ c ≤ 'Z' then Char.ofNat (c.toNat + 32)
  else if 'А' ≤ c ∧ c ≤ 'Я' then Char.ofNat (c.toNat + 32)
  else if c = 'Ё' then 'ё'
  else c

/-- Lowercase a whole string, JS-style. -/
def jsToLower (s : String) : String :=
  String.mk (s.data.map jsCharLower)

/-- Occurrence of `needle` as a contiguous sublist of `hay`. -/
def listHasSub (needle : List Char) : List Char → Bool
  | [] => needle.isEmpty
  | a :: t => needle.isPrefixOf (a :: t) || listHasSub needle t

/-- JS String.prototype.includes: substring containment. -/
def jsIncludes (hay needle : String) : Bool :=
  listHasSub needle.data hay.data

/-- JS `s || d` for strings: the empty string is falsy. -/
def jsOr (s d : String) : String :=
  if s = "" then d else s

/-- Whitespace characters removed by JS String.prototype.trim (the ones that
occur in chat text). -/
def isWsChar (c : Char) : Bool :=
  c = ' ' || c = '\t' || c = '\n' || c = '\r'

/-- JS String.prototype.trim: strip whitespace from both ends. -/
def jsTrim (s : String) : String :=
  String.mk (((s.data.dropWhile isWsChar).reverse.dropWhile isWsChar).reverse)

/-- JS String.prototype.startsWith. -/
def jsStartsWith (s pre : String) : Bool :=
  pre.data.isPrefixOf s.data

/- ===================== Data model (src/models) ===================== -/

/-- A row of the User collection (src/models/user.js); only the fields the
embedded operations read. -/
structure User where
  telegramId : String
deriving Repr, DecidableEq

/-- A row of the UserProfile collection; Mongo ObjectIds are modelled as Nat. -/
structure UserProfile where
  id : Nat
  telegramId : String
  conference : Nat
  isActive : Bool
  onboardingCompleted : Bool
  firstName : Option String
  lastName : Option String
  interests : List String
  offerings : List String
  lookingFor : List String
  roles : List String
deriving Repr, DecidableEq

/-- A row of the Conference collection (src/models/conference.js); fields the
embedded operations read or write. `currentSlideUrl`/`currentSlideTitle` are
Option: `none` models the mongoose field being unset (undefined). -/
structure Conference where
  id : Nat
  title : String
  conferenceCode : String
  isActive : Bool
  isEnded : Bool
  admins : List Nat
  currentSlideUrl : Option String
  currentSlideTitle : Option String
deriving Repr, DecidableEq

/- ===================== src/lib/realtime.js ===================== -/

/-- Payload of a slide-updated broadcast: `{url: string|null, title: string|null}`;
`none` models JSON null. -/
structure SlidePayload where
  url : Option String
  title : Option String
deriving Repr, DecidableEq

/-- One event published on a conference channel. -/
structure RtEvent where
  conferenceId : Nat
  name : String
  payload : SlidePayload
deriving Repr, DecidableEq

/-- emitToConference (src/lib/realtime.js:7-11). `ioConfigured` models whether
`setIO` has installed a transport (`ioInstance !== null`). The function is
total: with no transport it returns without publishing (`if (!ioInstance) return`),
it never throws. Its result is the list of events actually delivered to the
conference room. -/
def emitToConference (ioConfigured : Bool) (conferenceId : Nat)
    (event : String) (payload : SlidePayload) : List RtEvent :=
  if ioConfigured then [⟨conferenceId, event, payload⟩] else []

/- ===================== src/services/slide.service.js ===================== -/

/-- Modelled from the spec: `userIsMainAdmin` lives in conference.service.js,
which is not among the embedded sources. Spec 4.1: "isMainAdmin (identity ∈ a
configured allow-list)"; the allow-list is MAIN_ADMIN_TELEGRAM_IDS. -/
def userIsMainAdmin (mainAdminIds : List String) (user : User) : Bool :=
  mainAdminIds.contains user.telegramId

/-- assertConferenceAdmin (slide.service.js:6-22): main admins pass; otherwise
the user's profiles for this conference are fetched and the check passes iff
some profile id occurs in conference.admins; otherwise ACCESS_DENIED. -/
def assertConferenceAdmin (mainAdminIds : List String)
    (profilesDb : List UserProfile) (user : User) (conference : Conference) :
    Except String Unit :=
  if userIsMainAdmin mainAdminIds user then .ok ()
  else
    let profiles := profilesDb.filter
      (fun p => p.telegramId == user.telegramId && p.conference == conference.id)
    let profileIds := profiles.map (fun p => p.id)
    let isConferenceAdmin :=
      decide (profileIds.length > 0) &&
        conference.admins.any (fun i => profileIds.contains i)
    if isConferenceAdmin then .ok () else .error "ACCESS_DENIED"

/-- Input record passed to Joi's slideSchema by setSlide. -/
structure SlideInput where
  url : String
  title : String
  conferenceCode : String
deriving Repr, DecidableEq

/-- Result of a successful setSlide/clearSlide: the saved conference collection,
the events delivered by the broadcaster, and the returned conference document. -/
structure SlideOpResult where
  confDb : List Conference
  events : List RtEvent
  conference : Conference
deriving Repr, DecidableEq

/-- setSlide (slide.service.js:24-51). `validateSlide` is the Joi validation
step `validate({url, title: title || '', conferenceCode}, slideSchema)`,
kept as a parameter: every theorem below holds for an arbitrary validator,
in particular for the concrete Joi schema. `title.getD ""` is `title || ''`
for a possibly-undefined string. -/
def setSlide (validateSlide : SlideInput → Except String SlideInput)
    (mainAdminIds : List String) (ioConfigured : Bool)
    (confDb : List Conference) (profilesDb : List UserProfile)
    (moderatorUser : User) (url : String) (title : Option String)
    (conferenceCode : String) : Except String SlideOpResult :=
  match validateSlide ⟨url, title.getD "", conferenceCode⟩ with
  | .error e => .error e
  | .ok validated =>
    match confDb.find? (fun c => c.conferenceCode == validated.conferenceCode) with
    | none => .error "CONFERENCE_NOT_FOUND"
    | some conference =>
      match assertConferenceAdmin mainAdminIds profilesDb moderatorUser conference with
      | .error e => .error e
      | .ok _ =>
        let conf2 : Conference :=
          { conference with
            currentSlideUrl := some validated.url,
            currentSlideTitle := some (jsOr validated.title "") }
        let confDb2 := confDb.map (fun c => if c.id == conference.id then conf2 else c)
        let events := emitToConference ioConfigured conference.id "slide-updated"
          ⟨conf2.currentSlideUrl, conf2.currentSlideTitle⟩
        .ok ⟨confDb2, events, conf2⟩

/-- clearSlide (slide.service.js:53-74): no validation step; sets both slide
fields to undefined and emits an explicit null payload. -/
def clearSlide (mainAdminIds : List String) (ioConfigured : Bool)
    (confDb : List Conference) (profilesDb : List UserProfile)
    (moderatorUser : User) (conferenceCode : String) :
    Except String SlideOpResult :=
  match confDb.find? (fun c => c.conferenceCode == conferenceCode) with
  | none => .error "CONFERENCE_NOT_FOUND"
  | some conference =>
    match assertConferenceAdmin mainAdminIds profilesDb moderatorUser conference with
    | .error e => .error e
    | .ok _ =>
      let conf2 : Conference :=
        { conference with currentSlideUrl := none, currentSlideTitle := none }
      let confDb2 := confDb.map (fun c => if c.id == conference.id then conf2 else c)
      let events := emitToConference ioConfigured conference.id "slide-updated"
        ⟨none, none⟩
      .ok ⟨confDb2, events, conf2⟩

/-- Caller-side view of setSlide: a thrown error leaves the stored collection
as it was and delivers no events. -/
def runSetSlide (validateSlide : SlideInput → Except String SlideInput)
    (mainAdminIds : List String) (ioConfigured : Bool)
    (confDb : List Conference) (profilesDb : List UserProfile)
    (moderatorUser : User) (url : String) (title : Option String)
    (conferenceCode : String) : List Conference × List RtEvent × Option String :=
  match setSlide validateSlide mainAdminIds ioConfigured confDb profilesDb
      moderatorUser url title conferenceCode with
  | .ok r => (r.confDb, r.events, none)
  | .error e => (confDb, [], some e)

/-- Caller-side view of clearSlide. -/
def runClearSlide (mainAdminIds : List String) (ioConfigured : Bool)
    (confDb : List Conference) (profilesDb : List UserProfile)
    (moderatorUser : User) (conferenceCode : String) :
    List Conference × List RtEvent × Option String :=
  match clearSlide mainAdminIds ioConfigured confDb profilesDb
      moderatorUser conferenceCode with
  | .ok r => (r.confDb, r.events, none)
  | .error e => (confDb, [], some e)

/- ============ searchProfiles (matching service, per slide.service.js:89-120) ============ -/

/-- searchProfiles: resolve the conference by code, query profiles with
conference/isActive/onboardingCompleted (plus `roles` containing the role when
one is given — `if (role)` is a JS truthiness test, so the empty string counts
as absent), take at most `limit` results, then, when non-blank free text is
given, keep the profiles whose interests/offerings/lookingFor contain the
trimmed lowercased text as a substring. -/
def searchProfiles (confDb : List Conference) (profilesDb : List UserProfile)
    (conferenceCode : String) (role : Option String) (text : Option String)
    (limit : Nat) : Except String (Conference × List UserProfile) :=
  match confDb.find? (fun c => c.conferenceCode == conferenceCode) with
  | none => .error "CONFERENCE_NOT_FOUND"
  | some conference =>
    let query := fun (p : UserProfile) =>
      p.conference == conference.id && p.isActive && p.onboardingCompleted &&
        (match role with
         | none => true
         | some r => if r = "" then true else p.roles.contains r)
    let profiles := (profilesDb.filter query).take limit
    match text with
    | some t =>
      if jsTrim t ≠ "" then
        let tl := jsToLower (jsTrim t)
        let filtered := profiles.filter (fun p =>
          (p.interests ++ p.offerings ++ p.lookingFor).any
            (fun val => jsIncludes (jsToLower val) tl))
        .ok (conference, filtered)
      else .ok (conference, profiles)
    | none => .ok (conference, profiles)

/-- searchProfiles with the declared default `limit = 20`. -/
def searchProfilesDefaultLimit (confDb : List Conference)
    (profilesDb : List UserProfile) (conferenceCode : String)
    (role : Option String) (text : Option String) :
    Except String (Conference × List UserProfile) :=
  searchProfiles confDb profilesDb conferenceCode role text 20

/- ============ upsertProfileForConference (profile service) ============ -/

/-- The record of known profile fields accepted by Joi's userProfileSchema
(`stripUnknown: true` removes everything else); a `some` field is one present
on the validated object. -/
structure ProfileData where
  firstName : Option String
  lastName : Option String
  interests : Option (List String)
  offerings : Option (List String)
  lookingFor : Option (List String)
  roles : Option (List String)
deriving Repr, DecidableEq

/-- Object.assign(profile, validated): copy exactly the present validated
fields onto the document. -/
def assignProfileData (p : UserProfile) (d : ProfileData) : UserProfile :=
  { p with
    firstName := match d.firstName with | some v => some v | none => p.firstName,
    lastName := match d.lastName with | some v => some v | none => p.lastName,
    interests := match d.interests with | some v => v | none => p.interests,
    offerings := match d.offerings with | some v => v | none => p.offerings,
    lookingFor := match d.lookingFor with | some v => v | none => p.lookingFor,
    roles := match d.roles with | some v => v | none => p.roles }

/-- The find-assign-save core of upsertProfileForConference, after the guard
and validation steps: find the (telegramId, conference) profile, create it if
absent (with isActive true), assign the validated fields, mark onboarding
completed, and save. Saving an existing document replaces the row with its id;
saving a new document inserts it with the fresh id `freshId`. -/
def upsertCore (freshId : Nat) (db : List UserProfile) (telegramId : String)
    (cid : Nat) (validated : ProfileData) : List UserProfile × UserProfile :=
  match db.find? (fun p => p.telegramId == telegramId && p.conference == cid) with
  | some profile =>
    let p2 := { assignProfileData profile validated with onboardingCompleted := true }
    (db.map (fun q => if q.id == p2.id then p2 else q), p2)
  | none =>
    let profile : UserProfile :=
      { id := freshId, telegramId := telegramId, conference := cid,
        isActive := true, onboardingCompleted := false,
        firstName := none, lastName := none, interests := [],
        offerings := [], lookingFor := [], roles := [] }
    let p2 := { assignProfileData profile validated with onboardingCompleted := true }
    (db ++ [p2], p2)

/-- upsertProfileForConference: guard against missing keys (JS truthiness:
the empty telegramId string and a null/undefined conferenceId are falsy),
validate the data, then run the find-assign-save core. `val` is the Joi
validation `validate(data, userProfileSchema)`, kept as a parameter: the
theorems hold for an arbitrary validator. -/
def upsertProfileForConference (val : ProfileData → Except String ProfileData)
    (freshId : Nat) (db : List UserProfile) (telegramId : String)
    (conferenceId : Option Nat) (data : ProfileData) :
    Except String (List UserProfile × UserProfile) :=
  if telegramId = "" then .error "MISSING_KEYS"
  else
    match conferenceId with
    | none => .error "MISSING_KEYS"
    | some cid =>
      match val data with
      | .error e => .error e
      | .ok validated => .ok (upsertCore freshId db telegramId cid validated)

/-- Number of stored profiles for a (telegramId, conference) pair. -/
def pairCount (db : List UserProfile) (telegramId : String) (cid : Nat) : Nat :=
  (db.filter (fun p => p.telegramId == telegramId && p.conference == cid)).length

/- ============ Poll engine (modelled from the spec) ============ -/

/-- One poll option: stable numeric id, text, and the set of voter identities. -/
structure PollOption where
  id : Nat
  text : String
  voters : List String
deriving Repr, DecidableEq

/-- A poll document. -/
structure Poll where
  question : String
  options : List PollOption
  isActive : Bool
deriving Repr, DecidableEq

/-- Modelled from the spec: voteInPoll lives in poll.service.js, which is not
among the embedded sources; the vote:poll action (bot.js:340-363) invokes it.
Spec 4.5: the vote is an atomic conditional update that only succeeds if the
voter is absent from every option's voter set, failing with ALREADY_VOTED
otherwise; votes on an inactive/missing poll are rejected (POLL_NOT_FOUND /
inactive guard), as are votes referencing an out-of-range option id. -/
def voteInPoll (voterId : String) (poll : Poll) (optionId : Nat) :
    Except String Poll :=
  if poll.isActive then
    if poll.options.any (fun o => o.voters.contains voterId) then
      .error "ALREADY_VOTED"
    else
      match poll.options.find? (fun o => o.id == optionId) with
      | none => .error "OPTION_NOT_FOUND"
      | some _ =>
        .ok { poll with
          options := poll.options.map (fun o =>
            if o.id == optionId then { o with voters := o.voters ++ [voterId] }
            else o) }
  else .error "POLL_NOT_FOUND"

/-- The poll state resulting from one vote attempt: on any failure the stored
poll is unchanged. -/
def applyVoteAttempt (poll : Poll) (att : String × Nat) : Poll :=
  match voteInPoll att.1 poll att.2 with
  | .ok p => p
  | .error _ => poll

/-- The poll state after a sequence of vote attempts. -/
def runVoteAttempts (poll : Poll) (atts : List (String × Nat)) : Poll :=
  atts.foldl applyVoteAttempt poll

/-- In how many options' voter sets does `v` appear. -/
def votedOptionCount (v : String) (poll : Poll) : Nat :=
  (poll.options.filter (fun o => o.voters.contains v)).length

/- ============ Dialog session store (bot.js module state) ============ -/

/-- Partial data accumulated by the onboarding flow (`onboarding.data`). -/
structure OnbData where
  firstName : Option String
  lastName : Option String
  interests : Option (List String)
  offerings : Option (List String)
  lookingFor : Option (List String)
deriving Repr, DecidableEq

/-- An entry of the onboardingState map: `{ step, data }`. -/
structure OnbState where
  step : Nat
  data : OnbData
deriving Repr, DecidableEq

/-- An entry of the userState map. The concrete flows store ad hoc objects;
the union of the fields they use is carried here, absent fields being none. -/
structure UState where
  flow : String
  step : Option String
  conferenceCode : Option String
  pollId : Option String
  question : Option String
  title : Option String
  targetSpeaker : Option String
deriving Repr, DecidableEq

/-- Fresh userState entry carrying only a flow name and step. -/
def mkUState (flow : String) (step : Option String) : UState :=
  ⟨flow, step, none, none, none, none, none⟩

/-- The two module-level session maps of bot.js (`userState`,
`onboardingState`), keyed by the Telegram user id. -/
structure SessionMaps where
  userState : Nat → Option UState
  onboardingState : Nat → Option OnbState

/-- Map.set on a keyed map. -/
def mapSet (m : Nat → Option α) (k : Nat) (v : α) : Nat → Option α :=
  fun k2 => if k2 = k then some v else m k2

/-- Map.delete on a keyed map. -/
def mapDel (m : Nat → Option α) (k : Nat) : Nat → Option α :=
  fun k2 => if k2 = k then none else m k2

/-- clearUserState (bot.js:70-73): delete the identity from both maps. -/
def clearUserState (s : SessionMaps) (id : Nat) : SessionMaps :=
  ⟨mapDel s.userState id, mapDel s.onboardingState id⟩

/-- Both maps empty. -/
def emptySessions : SessionMaps :=
  ⟨fun _ => none, fun _ => none⟩

/- ============ Flow starters (bot.js actions and reply-keyboard handlers) ============ -/

/-- bot.action('menu:ask_question') (bot.js:233-251): clearUserState first;
if the user has no conferences, only an error reply is sent (state stays
cleared); otherwise the fresh ask_question session is installed.
`hasConferences` stands for `listConferencesForUser(user).length > 0`. -/
def actionMenuAskQuestion (s : SessionMaps) (id : Nat) (hasConferences : Bool) :
    SessionMaps :=
  let s1 := clearUserState s id
  if !hasConferences then s1
  else ⟨mapSet s1.userState id (mkUState "ask_question" (some "select_conference")),
        s1.onboardingState⟩

/-- bot.hears('🔍 Найти участников') (bot.js:1104-1117): no clearUserState;
sets the fresh find_participants session over whatever userState held. -/
def hearsFindParticipants (s : SessionMaps) (id : Nat) (hasConferences : Bool) :
    SessionMaps :=
  if !hasConferences then s
  else ⟨mapSet s.userState id (mkUState "find_participants" (some "select_conference")),
        s.onboardingState⟩

/-- bot.hears('❓ Задать вопрос') (bot.js:1119-1132): no clearUserState;
sets the fresh ask_question session over whatever userState held. -/
def hearsAskQuestion (s : SessionMaps) (id : Nat) (hasConferences : Bool) :
    SessionMaps :=
  if !hasConferences then s
  else ⟨mapSet s.userState id (mkUState "ask_question" (some "select_conference")),
        s.onboardingState⟩

/-- bot.hears('📊 Опросы') (bot.js:1134-1147): no clearUserState; sets the
fresh polls session over whatever userState held. -/
def hearsPolls (s : SessionMaps) (id : Nat) (hasConferences : Bool) :
    SessionMaps :=
  if !hasConferences then s
  else ⟨mapSet s.userState id (mkUState "polls" (some "select_conference")),
        s.onboardingState⟩

/-- bot.action('menu:admin_participants') (bot.js:1248-1262): no
clearUserState; sets the fresh manage_participants session over whatever
userState held. -/
def actionMenuAdminParticipants (s : SessionMaps) (id : Nat)
    (hasConferences : Bool) : SessionMaps :=
  if !hasConferences then s
  else ⟨mapSet s.userState id
          (mkUState "manage_participants" (some "select_conference")),
        s.onboardingState⟩

/-- bot.hears('👤 Профиль') (bot.js:1095-1102): clearUserState first, then
start onboarding at step 1 with empty data. -/
def hearsProfile (s : SessionMaps) (id : Nat) : SessionMaps :=
  let s1 := clearUserState s id
  ⟨s1.userState,
   mapSet s1.onboardingState id ⟨1, ⟨none, none, none, none, none⟩⟩⟩

/-- bot.hears('➕ Присоединиться') (bot.js:1086-1093): clearUserState first,
then start the join_conference flow. -/
def hearsJoinConference (s : SessionMaps) (id : Nat) : SessionMaps :=
  let s1 := clearUserState s id
  ⟨mapSet s1.userState id (mkUState "join_conference" none), s1.onboardingState⟩

/- ============ bot.on('text') dispatch (bot.js:1568-2090) ============ -/

/-- Which branch of the text dispatch ran. -/
inductive DispatchOutcome where
  | skippedCommand
  | cancelled
  | guidance
  | onboardingStep
  | flowStep
deriving Repr, DecidableEq

/-- Result of one text dispatch: the session maps, the domain state (an
arbitrary type δ standing for everything the flow handlers may mutate), the
branch taken, and the reply sent (none when the handler returned silently). -/
structure TextResult (δ : Type) where
  sessions : SessionMaps
  dom : δ
  outcome : DispatchOutcome
  reply : Option String

/-- The flow-specific branches of bot.on('text'), kept as parameters: the
onboarding branch (entered only when onboardingState is set and userState is
not) and the userState flow branches (the if-chain on state.flow/state.step,
including its bottom fallback). The dispatch theorems hold for arbitrary
handler bodies. -/
structure FlowHandlers (δ : Type) where
  onboarding : OnbState → String → Nat → SessionMaps → δ →
    SessionMaps × δ × Option String
  flowStep : UState → Option OnbState → String → Nat → SessionMaps → δ →
    SessionMaps × δ × Option String

/-- The cancel-token test at the top of bot.on('text') (bot.js:1577):
`text.toLowerCase()` compared with the three literals. -/
def isCancelText (t : String) : Bool :=
  jsToLower t == "отмена" || jsToLower t == "cancel" || jsToLower t == "/cancel"

/-- Reply of the cancel branch. -/
def cancelReply : String := "✅ Текущее действие отменено."

/-- Reply of the no-active-state branch. -/
def guidanceReply : String :=
  "ℹ️ Выберите действие из меню или используйте команду /start для начала."

/-- bot.on('text') (bot.js:1568-2090): skip commands; trim; the cancel check
runs first and unconditionally clears both maps; with no state in either map,
reply with neutral guidance; otherwise dispatch to onboarding (only when no
userState flow is active) or to the userState flow branches. -/
def onText (flows : FlowHandlers δ) (id : Nat) (raw : String)
    (s : SessionMaps) (dom : δ) : TextResult δ :=
  if jsStartsWith raw "/" then ⟨s, dom, .skippedCommand, none⟩
  else
    let text := jsTrim raw
    if isCancelText text then
      ⟨clearUserState s id, dom, .cancelled, some cancelReply⟩
    else
      match s.userState id, s.onboardingState id with
      | none, none => ⟨s, dom, .guidance, some guidanceReply⟩
      | none, some onb =>
        let (s2, d2, r2) := flows.onboarding onb text id s dom
        ⟨s2, d2, .onboardingStep, r2⟩
      | some st, onb =>
        let (s2, d2, r2) := flows.flowStep st onb text id s dom
        ⟨s2, d2, .flowStep, r2⟩

/- ============ edit-poll text branch (bot.js:1960-1990) ============ -/

/-- Result of the edit-poll text branch: the poll collection, the session
maps, and the reply sent. -/
structure EditPollOutcome where
  polls : List Poll
  sessions : SessionMaps
  reply : String

/-- The names bound in scope at bot.js:1969 — the locals of the edit_poll
branch and of the bot.on('text') callback, plus the module-level bindings of
bot.js. `joinState` is declared nowhere in the file (the session record is
bound to `state`). -/
def editPollScopeNames : List String :=
  ["user", "payload", "Poll", "poll", "Conference", "conference", "ctx",
   "text", "state", "onboarding", "err",
   "Telegraf", "Markup", "ensureUserFromTelegram", "userIsMainAdmin",
   "createConference", "joinConference", "listConferencesForUser",
   "endConference", "assignConferenceAdmin", "revokeConferenceAdmin",
   "updateConference", "startConference", "stopConference", "deleteConference",
   "assignSpeaker", "removeSpeaker", "askQuestion",
   "listQuestionsForModeration", "approveQuestion", "rejectQuestion",
   "answerQuestion", "listQuestionsForSpeaker", "listSpeakers", "setSlide",
   "clearSlide", "createPoll", "voteInPoll", "getPollsForConference",
   "deactivatePoll", "updatePoll", "deletePoll", "listPollsForManagement",
   "validate", "userProfileSchema", "upsertProfileForConference",
   "searchProfiles", "getUserRoles", "getMainMenu", "getUserMenu",
   "getSpeakerMenu", "getConferenceAdminMenu", "getMainAdminMenu",
   "getConferenceSelectionMenu", "getConfirmationMenu",
   "getQuestionModerationMenu", "getPollVoteMenu", "getReplyKeyboard",
   "removeReplyKeyboard", "getConferenceManagementMenu",
   "getSpeakerSelectionMenu", "getQuestionListMenu", "getPollManagementMenu",
   "getParticipantSelectionMenu", "getSecondScreenUrl",
   "onboardingState", "userState", "clearUserState", "botInstance",
   "initBot", "getBot", "bot", "token"]

/-- Reading a variable in a JS scope: a name that is not declared anywhere in
scope throws a ReferenceError. The value a declared name would evaluate to is
irrelevant to the theorems below, so it is modelled by the name itself. -/
def jsReadVar (scope : List String) (name : String) : Except String String :=
  if scope.contains name then .ok name
  else .error ("ReferenceError: " ++ name ++ " is not defined")

/-- Reply of the edit-poll catch branch. -/
def editPollErrorReply : String :=
  "❌ Ошибка при обновлении опроса.\n\nОтправь \"отмена\" для выхода."

/-- The edit-poll text branch (bot.js:1960-1990). The try block builds
`payload` (question set when the trimmed text is not "-") and then evaluates
`joinState.pollId`; `joinState` being undeclared, that read throws. The rest
of the try block (Poll.findById, the CONFERENCE lookup, updatePoll,
clearUserState and the success reply) is the continuation `rest`, parameterized
because it is unreachable for every input; any thrown error lands in the catch
branch, which replies with the error message and leaves every state as it was. -/
def editPollTextHandler
    (rest : String → Option String → Except String EditPollOutcome)
    (pollsDb : List Poll) (s : SessionMaps) (text : String) : EditPollOutcome :=
  let payload : Option String := if jsTrim text = "-" then none else some (jsTrim text)
  let attempt : Except String EditPollOutcome :=
    (jsReadVar editPollScopeNames "joinState").bind (fun jv => rest jv payload)
  match attempt with
  | .ok r => r
  | .error _ => ⟨pollsDb, s, editPollErrorReply⟩

/- ============ Concrete fixtures used by witnesses ============ -/

/-- Flow handlers that do nothing; dispatch-level theorems hold for arbitrary
handlers, witnesses instantiate them here. -/
def noopFlows : FlowHandlers Unit :=
  ⟨fun _ _ _ s d => (s, d, none), fun _ _ _ _ s d => (s, d, none)⟩

/-- A session state in which identity 3 is mid-flow. -/
def demoSessions : SessionMaps :=
  ⟨mapSet (fun _ => none) 3 (mkUState "ask_question" (some "enter_question")),
   fun _ => none⟩

/-- A validator accepting its input unchanged. -/
def okValidator : SlideInput → Except String SlideInput := fun v => .ok v

/-- A profile-data validator accepting its input unchanged. -/
def okProfileValidator : ProfileData → Except String ProfileData := fun v => .ok v

/-- A conference with no slide set. -/
def demoConference : Conference := ⟨1, "DevCon", "abc123", true, false, [], none, none⟩

/-- A main-admin user (telegramId listed in the allow-list of the witnesses). -/
def demoAdminUser : User := ⟨"9"⟩

/-- A user that is neither main admin nor conference admin in the witnesses. -/
def demoPlainUser : User := ⟨"5"⟩

/-- demoConference after setSlide with url https://x/s.png and no title. -/
def demoSlideConference : Conference :=
  ⟨1, "DevCon", "abc123", true, false, [], some "https://x/s.png", some ""⟩

/-- The result of the witness setSlide call. -/
def demoSetSlideResult : SlideOpResult :=
  ⟨[demoSlideConference],
   [⟨1, "slide-updated", ⟨some "https://x/s.png", some ""⟩⟩],
   demoSlideConference⟩

/-- demoConference after clearSlide. -/
def demoClearedConference : Conference :=
  ⟨1, "DevCon", "abc123", true, false, [], none, none⟩

/-- The result of the witness clearSlide call. -/
def demoClearSlideResult : SlideOpResult :=
  ⟨[demoClearedConference], [⟨1, "slide-updated", ⟨none, none⟩⟩],
   demoClearedConference⟩

/-- Profile data with every field absent. -/
def emptyProfileData : ProfileData := ⟨none, none, none, none, none, none⟩

/-- The profile created by the witness upsert call. -/
def demoUpsertProfile : UserProfile :=
  ⟨10, "42", 5, true, true, none, none, [], [], [], []⟩

/-- The poll of the spec's vote scenario. -/
def lunchPoll : Poll :=
  ⟨"Lunch or dinner?", [⟨0, "Lunch", []⟩, ⟨1, "Dinner", []⟩], true⟩

/-- lunchPoll after voter X takes option 0. -/
def lunchPollVoted : Poll :=
  ⟨"Lunch or dinner?", [⟨0, "Lunch", ["X"]⟩, ⟨1, "Dinner", []⟩], true⟩

/-- Conference for the search witnesses. -/
def demoSearchConf : Conference := ⟨1, "C", "c1", true, false, [], none, none⟩

/-- Active, onboarded profile whose interests do not mention ai. -/
def demoProfileA : UserProfile :=
  ⟨1, "a", 1, true, true, none, none, ["food"], [], [], []⟩

/-- Active, onboarded profile whose interests mention ai. -/
def demoProfileB : UserProfile :=
  ⟨2, "b", 1, true, true, none, none, ["ai"], [], [], []⟩

/- =====================================================================
   Theorems
   ===================================================================== -/

/- ============ Generic list helpers ============ -/

lemma contains_iff_mem {α : Type _} [BEq α] [LawfulBEq α] (l : List α) (a : α) :
    l.contains a = true ↔ a ∈ l := by
  simp [List.contains, List.elem_iff]

lemma contains_append_single {w v : String} (l : List String)
    (hwv : w ≠ v) : (l ++ [w]).contains v = l.contains v := by
  rw [Bool.eq_iff_iff, contains_iff_mem, contains_iff_mem, List.mem_append,
    List.mem_singleton]
  constructor
  · rintro (h | h)
    · exact h
    · exact absurd h.symm hwv
  · exact Or.inl

lemma contains_append_self (l : List String) (v : String) :
    (l ++ [v]).contains v = true := by
  rw [contains_iff_mem, List.mem_append, List.mem_singleton]
  exact Or.inr rfl

lemma length_filter_map_congr {α : Type _} {l : List α} {f : α → α}
    {p : α → Bool} (h : ∀ a ∈ l, p (f a) = p a) :
    ((l.map f).filter p).length = (l.filter p).length := by
  induction l with
  | nil => rfl
  | cons a t ih =>
    simp only [List.map_cons, List.filter_cons, h a (List.mem_cons_self a t)]
    have ht := ih (fun b hb => h b (List.mem_cons_of_mem a hb))
    cases hp : p a <;> simp [ht]

/- ============ Claim C2 ============ -/

/-- Claim C2: for every identity and non-command text event whose trimmed text
is the cancellation token (cancel or отмена, case-insensitively), the dispatch
clears both session maps for that identity before any flow-specific branch
runs (the result is independent of the flow handlers and of which flow was
active), and a subsequent non-command, non-cancel free text from the same
identity is handled as having no active flow. -/
theorem claim_C2 {δ : Type} (flows : FlowHandlers δ) (id : Nat) (raw : String)
    (s : SessionMaps) (dom : δ)
    (hcmd : jsStartsWith raw "/" = false)
    (htok : jsToLower (jsTrim raw) = "cancel" ∨ jsToLower (jsTrim raw) = "отмена") :
    onText flows id raw s dom =
      ⟨clearUserState s id, dom, .cancelled, some cancelReply⟩ ∧
    (clearUserState s id).userState id = none ∧
    (clearUserState s id).onboardingState id = none ∧
    (∀ raw2, jsStartsWith raw2 "/" = false → isCancelText (jsTrim raw2) = false →
      onText flows id raw2 (clearUserState s id) dom =
        ⟨clearUserState s id, dom, .guidance, some guidanceReply⟩) := by
  have hc : isCancelText (jsTrim raw) = true := by
    unfold isCancelText
    rcases htok with h | h <;> simp [h]
  refine ⟨?_, ?_, ?_, ?_⟩
  · simp [onText, hcmd, hc]
  · simp [clearUserState, mapDel]
  · simp [clearUserState, mapDel]
  · intro raw2 h1 h2
    simp [onText, h1, h2, clearUserState, mapDel]

/-- Witness for C2: the user with an active ask-question flow sends
a capitalized Cancel; both maps end up cleared and the cancel reply is sent. -/
theorem claim_C2_witness :
    onText noopFlows 3 "Cancel" demoSessions () =
      ⟨clearUserState demoSessions 3, (), .cancelled, some cancelReply⟩ :=
  (claim_C2 noopFlows 3 "Cancel" demoSessions () (by decide)
    (Or.inl (by decide))).1

/- ============ Claim C8 ============ -/

/-- Claim C8: a non-command, non-cancel text from an identity with no entry in
either session map is not interpreted as any flow step (the result is
independent of the flow handlers), mutates no domain state, replies with the
neutral guidance message, and leaves the identity with no active session. -/
theorem claim_C8 {δ : Type} (flows : FlowHandlers δ) (id : Nat) (raw : String)
    (s : SessionMaps) (dom : δ)
    (hcmd : jsStartsWith raw "/" = false)
    (hnc : isCancelText (jsTrim raw) = false)
    (hu : s.userState id = none) (ho : s.onboardingState id = none) :
    onText flows id raw s dom = ⟨s, dom, .guidance, some guidanceReply⟩ ∧
    (onText flows id raw s dom).sessions.userState id = none ∧
    (onText flows id raw s dom).sessions.onboardingState id = none := by
  have h : onText flows id raw s dom = ⟨s, dom, .guidance, some guidanceReply⟩ := by
    simp [onText, hcmd, hnc, hu, ho]
  exact ⟨h, by rw [h]; exact hu, by rw [h]; exact ho⟩

/-- Witness for C8: identity 3 with empty session maps sends hello and gets
the guidance reply with nothing mutated. -/
theorem claim_C8_witness :
    onText noopFlows 3 "hello" emptySessions () =
      ⟨emptySessions, (), .guidance, some guidanceReply⟩ :=
  (claim_C8 noopFlows 3 "hello" emptySessions () (by decide) (by decide)
    rfl rfl).1

/- ============ Claim C9 ============ -/

/-- Claim C9: the edit-poll text step reads the undeclared variable joinState,
so for every text input the try block throws a ReferenceError and the catch
branch replies with the error message; the success continuation (poll update,
session clearing, success reply) is unreachable for every continuation body,
so the poll collection and the session maps are left unchanged and no poll is
ever updated through this flow. -/
theorem claim_C9 (rest : String → Option String → Except String EditPollOutcome)
    (pollsDb : List Poll) (s : SessionMaps) (text : String) :
    jsReadVar editPollScopeNames "joinState" =
      .error "ReferenceError: joinState is not defined" ∧
    (editPollTextHandler rest pollsDb s text).polls = pollsDb ∧
    (editPollTextHandler rest pollsDb s text).sessions = s ∧
    (editPollTextHandler rest pollsDb s text).reply = editPollErrorReply := by
  have h : jsReadVar editPollScopeNames "joinState" =
      .error "ReferenceError: joinState is not defined" := by rfl
  refine ⟨h, ?_, ?_, ?_⟩ <;>
    simp [editPollTextHandler, h, Except.bind]

/- ============ Claim C3 ============ -/

/-- Counterexample to C3 as stated: identity 7 starts the onboarding flow via
the profile reply-keyboard button, then starts the ask-question flow via the
ask-question reply-keyboard button; afterwards BOTH an ask-question userState
session and the prior onboarding session are live for identity 7, so starting
the new flow did not clear all prior session state and more than one active
session exists. -/
theorem claim_C3_counterexample :
    (hearsAskQuestion (hearsProfile emptySessions 7) 7 true).userState 7 =
      some (mkUState "ask_question" (some "select_conference")) ∧
    (hearsAskQuestion (hearsProfile emptySessions 7) 7 true).onboardingState 7 =
      some ⟨1, ⟨none, none, none, none, none⟩⟩ := by
  constructor <;> rfl

/-- Claim C3, amended: not every flow starter clears prior session state.
The menu:ask_question action and the join and profile reply-keyboard starters
call clearUserState first, leaving exactly the new flow's fresh session (or
nothing, when the user has no conference); but the reply-keyboard starters
for find-participants, ask-question and polls, and likewise the inline
menu:admin_participants action, only overwrite the identity's userState entry
with the new flow's fresh initial session — so at most one userState flow is
active and the new session never contains data of a previous flow — while
leaving onboardingState untouched, so a previously started onboarding session
survives alongside the new flow's session. -/
theorem claim_C3 (s : SessionMaps) (id : Nat) :
    ((actionMenuAskQuestion s id true).userState id =
        some (mkUState "ask_question" (some "select_conference")) ∧
      (actionMenuAskQuestion s id true).onboardingState id = none) ∧
    ((actionMenuAskQuestion s id false).userState id = none ∧
      (actionMenuAskQuestion s id false).onboardingState id = none) ∧
    ((hearsFindParticipants s id true).userState id =
        some (mkUState "find_participants" (some "select_conference")) ∧
      (hearsFindParticipants s id true).onboardingState id =
        s.onboardingState id) ∧
    ((hearsAskQuestion s id true).userState id =
        some (mkUState "ask_question" (some "select_conference")) ∧
      (hearsAskQuestion s id true).onboardingState id = s.onboardingState id) ∧
    ((hearsPolls s id true).userState id =
        some (mkUState "polls" (some "select_conference")) ∧
      (hearsPolls s id true).onboardingState id = s.onboardingState id) ∧
    ((actionMenuAdminParticipants s id true).userState id =
        some (mkUState "manage_participants" (some "select_conference")) ∧
      (actionMenuAdminParticipants s id true).onboardingState id =
        s.onboardingState id) ∧
    ((hearsJoinConference s id).userState id =
        some (mkUState "join_conference" none) ∧
      (hearsJoinConference s id).onboardingState id = none) ∧
    ((hearsProfile s id).userState id = none ∧
      (hearsProfile s id).onboardingState id =
        some ⟨1, ⟨none, none, none, none, none⟩⟩) := by
  refine ⟨⟨?_, ?_⟩, ⟨?_, ?_⟩, ⟨?_, ?_⟩, ⟨?_, ?_⟩, ⟨?_, ?_⟩, ⟨?_, ?_⟩,
    ⟨?_, ?_⟩, ?_, ?_⟩ <;>
    simp [actionMenuAskQuestion, hearsFindParticipants, hearsAskQuestion,
      hearsPolls, actionMenuAdminParticipants, hearsJoinConference,
      hearsProfile, clearUserState, mapSet, mapDel]

/- ============ Claim C4 ============ -/

lemma confAdminBool_iff (profDb : List UserProfile) (u : User) (c : Conference) :
    (decide (((profDb.filter (fun p =>
        p.telegramId == u.telegramId && p.conference == c.id)).map
          (fun p => p.id)).length > 0) &&
      c.admins.any (fun i => ((profDb.filter (fun p =>
        p.telegramId == u.telegramId && p.conference == c.id)).map
          (fun p => p.id)).contains i)) = true ↔
    ∃ p ∈ profDb, p.telegramId = u.telegramId ∧ p.conference = c.id ∧
      p.id ∈ c.admins := by
  simp only [Bool.and_eq_true, decide_eq_true_eq, List.any_eq_true]
  constructor
  · rintro ⟨-, a, ha, hc⟩
    rw [contains_iff_mem] at hc
    rcases List.mem_map.mp hc with ⟨p, hp, rfl⟩
    rcases List.mem_filter.mp hp with ⟨hpdb, hpred⟩
    simp only [Bool.and_eq_true, beq_iff_eq] at hpred
    exact ⟨p, hpdb, hpred.1, hpred.2, ha⟩
  · rintro ⟨p, hpdb, h1, h2, h3⟩
    have hp : p ∈ profDb.filter (fun p =>
        p.telegramId == u.telegramId && p.conference == c.id) :=
      List.mem_filter.mpr ⟨hpdb, by simp [h1, h2]⟩
    have hmem : p.id ∈ (profDb.filter (fun p =>
        p.telegramId == u.telegramId && p.conference == c.id)).map
          (fun p => p.id) := List.mem_map.mpr ⟨p, hp, rfl⟩
    exact ⟨List.length_pos_of_mem hmem, p.id, h3,
      (contains_iff_mem _ _).mpr hmem⟩

lemma assertConferenceAdmin_ok_iff (mains : List String)
    (profDb : List UserProfile) (u : User) (c : Conference) :
    assertConferenceAdmin mains profDb u c = .ok () ↔
      userIsMainAdmin mains u = true ∨
        ∃ p ∈ profDb, p.telegramId = u.telegramId ∧ p.conference = c.id ∧
          p.id ∈ c.admins := by
  unfold assertConferenceAdmin
  cases hm : userIsMainAdmin mains u
  · rw [if_neg (by simp [hm])]
    dsimp only
    by_cases hb : (decide (((profDb.filter (fun p =>
          p.telegramId == u.telegramId && p.conference == c.id)).map
            (fun p => p.id)).length > 0) &&
        c.admins.any (fun i => ((profDb.filter (fun p =>
          p.telegramId == u.telegramId && p.conference == c.id)).map
            (fun p => p.id)).contains i)) = true
    · rw [if_pos hb]
      exact iff_of_true rfl (Or.inr ((confAdminBool_iff profDb u c).mp hb))
    · rw [if_neg hb]
      refine iff_of_false (by simp) ?_
      rintro (h | h)
      · exact absurd h (by simp)
      · exact hb ((confAdminBool_iff profDb u c).mpr h)
  · rw [if_pos (by simp [hm])]
    exact iff_of_true rfl (Or.inl rfl)

lemma assertConferenceAdmin_ok_or_denied (mains : List String)
    (profDb : List UserProfile) (u : User) (c : Conference) :
    assertConferenceAdmin mains profDb u c = .ok () ∨
    assertConferenceAdmin mains profDb u c = .error "ACCESS_DENIED" := by
  unfold assertConferenceAdmin
  cases hm : userIsMainAdmin mains u
  · rw [if_neg (by simp [hm])]
    dsimp only
    by_cases hb : (decide (((profDb.filter (fun p =>
          p.telegramId == u.telegramId && p.conference == c.id)).map
            (fun p => p.id)).length > 0) &&
        c.admins.any (fun i => ((profDb.filter (fun p =>
          p.telegramId == u.telegramId && p.conference == c.id)).map
            (fun p => p.id)).contains i)) = true
    · rw [if_pos hb]; exact Or.inl rfl
    · rw [if_neg hb]; exact Or.inr rfl
  · rw [if_pos (by simp [hm])]; exact Or.inl rfl

/-- Claim C4: the effective conference-admin check succeeds exactly when the
acting user is a main admin or some profile of that user for the conference
has its id in the conference's admins list; otherwise it throws
ACCESS_DENIED, and in that case setSlide and clearSlide leave the stored
conference collection — in particular its slide fields — unchanged and
publish no event. -/
theorem claim_C4 :
    (∀ (mains : List String) (profDb : List UserProfile) (u : User)
        (c : Conference),
      assertConferenceAdmin mains profDb u c = .ok () ↔
        userIsMainAdmin mains u = true ∨
          ∃ p ∈ profDb, p.telegramId = u.telegramId ∧ p.conference = c.id ∧
            p.id ∈ c.admins) ∧
    (∀ (mains : List String) (profDb : List UserProfile) (u : User)
        (c : Conference),
      assertConferenceAdmin mains profDb u c = .ok () ∨
      assertConferenceAdmin mains profDb u c = .error "ACCESS_DENIED") ∧
    (∀ val mains io confDb profDb u url title code v c,
      val ⟨url, Option.getD title "", code⟩ = .ok v →
      confDb.find? (fun x => x.conferenceCode == v.conferenceCode) = some c →
      assertConferenceAdmin mains profDb u c = .error "ACCESS_DENIED" →
      runSetSlide val mains io confDb profDb u url title code =
        (confDb, [], some "ACCESS_DENIED")) ∧
    (∀ mains io confDb profDb u code c,
      confDb.find? (fun x => x.conferenceCode == code) = some c →
      assertConferenceAdmin mains profDb u c = .error "ACCESS_DENIED" →
      runClearSlide mains io confDb profDb u code =
        (confDb, [], some "ACCESS_DENIED")) := by
  refine ⟨assertConferenceAdmin_ok_iff, assertConferenceAdmin_ok_or_denied,
    ?_, ?_⟩
  · intro val mains io confDb profDb u url title code v c hval hfind hassert
    simp only [runSetSlide, setSlide, hval, hfind, hassert]
  · intro mains io confDb profDb u code c hfind hassert
    simp only [runClearSlide, clearSlide, hfind, hassert]

/-- Witness for C4: a non-admin user without profiles is denied setSlide on
DevCon; the stored collection is returned unchanged and no event goes out. -/
theorem claim_C4_witness :
    runSetSlide okValidator ["9"] true [demoConference] [] demoPlainUser
      "https://x/s.png" none "abc123" =
      ([demoConference], [], some "ACCESS_DENIED") :=
  claim_C4.2.2.1 okValidator ["9"] true [demoConference] [] demoPlainUser
    "https://x/s.png" none "abc123" ⟨"https://x/s.png", "", "abc123"⟩
    demoConference rfl rfl rfl

/- ============ Claim C5 ============ -/

/-- Claim C5: with the transport configured, every successful setSlide
publishes exactly one slide-updated event on the conference's channel whose
payload is the persisted url and title (both present), and every successful
clearSlide publishes exactly one slide-updated event with url and title null;
the persisted conference document belongs to the saved collection. The payload
shape is `{url : Option String, title : Option String}` by construction, and
setSlide/clearSlide are the only call sites of emitToConference in the
embedded sources. -/
theorem claim_C5 :
    (∀ val mains confDb profDb u url title code r,
      setSlide val mains true confDb profDb u url title code = .ok r →
        r.events = [⟨r.conference.id, "slide-updated",
          ⟨r.conference.currentSlideUrl, r.conference.currentSlideTitle⟩⟩] ∧
        (∃ u2, r.conference.currentSlideUrl = some u2) ∧
        (∃ t2, r.conference.currentSlideTitle = some t2) ∧
        r.conference ∈ r.confDb) ∧
    (∀ mains confDb profDb u code r,
      clearSlide mains true confDb profDb u code = .ok r →
        r.events = [⟨r.conference.id, "slide-updated", ⟨none, none⟩⟩] ∧
        r.conference.currentSlideUrl = none ∧
        r.conference.currentSlideTitle = none ∧
        r.conference ∈ r.confDb) := by
  constructor
  · intro val mains confDb profDb u url title code r h
    unfold setSlide at h
    split at h
    · exact absurd h (by simp)
    · split at h
      · exact absurd h (by simp)
      · split at h
        · exact absurd h (by simp)
        · rename_i vscrut validated hval fscrut conference hfind ascrut u2 hassert
          simp only [Except.ok.injEq] at h
          subst h
          refine ⟨by simp [emitToConference], ⟨validated.url, rfl⟩,
            ⟨jsOr validated.title "", rfl⟩, ?_⟩
          exact List.mem_map.mpr
            ⟨conference, List.mem_of_find?_eq_some hfind, by simp⟩
  · intro mains confDb profDb u code r h
    unfold clearSlide at h
    split at h
    · exact absurd h (by simp)
    · split at h
      · exact absurd h (by simp)
      · rename_i fscrut conference hfind ascrut u2 hassert
        simp only [Except.ok.injEq] at h
        subst h
        refine ⟨by simp [emitToConference], rfl, rfl, ?_⟩
        exact List.mem_map.mpr
          ⟨conference, List.mem_of_find?_eq_some hfind, by simp⟩

/-- Witness for C5: the main admin sets a slide on DevCon; exactly one
slide-updated event with the persisted url and empty title is published. -/
theorem claim_C5_witness :
    demoSetSlideResult.events =
      [⟨demoSetSlideResult.conference.id, "slide-updated",
        ⟨demoSetSlideResult.conference.currentSlideUrl,
         demoSetSlideResult.conference.currentSlideTitle⟩⟩] :=
  (claim_C5.1 okValidator ["9"] [demoConference] [] demoAdminUser
    "https://x/s.png" none "abc123" demoSetSlideResult rfl).1

/- ============ Claim C6 ============ -/

/-- Claim C6: broadcasting is fire-and-forget. With no transport configured,
emitToConference is a no-op that returns normally; whether or not a transport
is configured, setSlide and clearSlide succeed or fail identically, persist
the same conference collection and return the same document — only the
delivered events differ. -/
theorem claim_C6 :
    (∀ cid ev pl, emitToConference false cid ev pl = []) ∧
    (∀ val mains confDb profDb u url title code,
      setSlide val mains false confDb profDb u url title code =
        Except.map (fun r => ⟨r.confDb, [], r.conference⟩)
          (setSlide val mains true confDb profDb u url title code)) ∧
    (∀ mains confDb profDb u code,
      clearSlide mains false confDb profDb u code =
        Except.map (fun r => ⟨r.confDb, [], r.conference⟩)
          (clearSlide mains true confDb profDb u code)) := by
  refine ⟨fun _ _ _ => rfl, ?_, ?_⟩
  · intro val mains confDb profDb u url title code
    unfold setSlide
    cases hv : val ⟨url, Option.getD title "", code⟩ with
    | error e => simp only [hv]; rfl
    | ok validated =>
      simp only [hv]
      cases hf : confDb.find?
          (fun c => c.conferenceCode == validated.conferenceCode) with
      | none => simp only [hf]; rfl
      | some conference =>
        simp only [hf]
        cases ha : assertConferenceAdmin mains profDb u conference with
        | error e => simp only [ha]; rfl
        | ok u2 => simp only [ha]; rfl
  · intro mains confDb profDb u code
    unfold clearSlide
    cases hf : confDb.find? (fun c => c.conferenceCode == code) with
    | none => simp only [hf]; rfl
    | some conference =>
      simp only [hf]
      cases ha : assertConferenceAdmin mains profDb u conference with
      | error e => simp only [ha]; rfl
      | ok u2 => simp only [ha]; rfl

/- ============ Claim C7 ============ -/

lemma upsertCore_spec (freshId : Nat) (db : List UserProfile) (tid : String)
    (cid : Nat) (validated : ProfileData) (db2 : List UserProfile)
    (p2 : UserProfile)
    (hnodup : (db.map (fun p => p.id)).Nodup)
    (hcount : pairCount db tid cid ≤ 1)
    (hfresh : freshId ∉ db.map (fun p => p.id))
    (h : upsertCore freshId db tid cid validated = (db2, p2)) :
    pairCount db2 tid cid = 1 ∧ (db2.map (fun p => p.id)).Nodup ∧
    ∀ g, g ∉ db.map (fun p => p.id) → g ≠ freshId →
      g ∉ db2.map (fun p => p.id) := by
  unfold upsertCore at h
  cases hfind : db.find? (fun p => p.telegramId == tid && p.conference == cid) with
  | some profile =>
    simp only [hfind, Prod.mk.injEq] at h
    obtain ⟨h1, h2⟩ := h
    subst h1
    have hpred := List.find?_some hfind
    have hmem := List.mem_of_find?_eq_some hfind
    have hids : (db.map (fun q =>
        if q.id == ({ assignProfileData profile validated with
            onboardingCompleted := true } : UserProfile).id then
          { assignProfileData profile validated with
            onboardingCompleted := true } else q)).map (fun p => p.id) =
        db.map (fun p => p.id) := by
      rw [List.map_map]
      apply List.map_congr_left
      intro q hq
      by_cases hid : (q.id == ({ assignProfileData profile validated with
          onboardingCompleted := true } : UserProfile).id) = true
      · simp only [Function.comp_apply, if_pos hid]
        exact (beq_iff_eq.mp hid).symm
      · simp only [Function.comp_apply, if_neg hid]
    refine ⟨?_, by rw [hids]; exact hnodup,
      fun g hg _ hmem2 => hg (hids ▸ hmem2)⟩
    unfold pairCount
    rw [length_filter_map_congr ?hcong]
    case hcong =>
      intro q hq
      by_cases hid : (q.id == ({ assignProfileData profile validated with
          onboardingCompleted := true } : UserProfile).id) = true
      · rw [if_pos hid]
        have hqp : q = profile :=
          List.inj_on_of_nodup_map hnodup hq hmem (beq_iff_eq.mp hid)
        rw [hqp]
        rfl
      · rw [if_neg hid]
    have hge : 0 < (db.filter (fun p =>
        p.telegramId == tid && p.conference == cid)).length :=
      List.length_pos_of_mem (List.mem_filter.mpr ⟨hmem, hpred⟩)
    have hle := hcount
    unfold pairCount at hle
    omega
  | none =>
    simp only [hfind, Prod.mk.injEq] at h
    obtain ⟨h1, h2⟩ := h
    subst h1
    have hnone := List.find?_eq_none.mp hfind
    have h0 : db.filter (fun p =>
        p.telegramId == tid && p.conference == cid) = [] :=
      List.filter_eq_nil_iff.mpr hnone
    have hids : (db ++ [({ assignProfileData
        ⟨freshId, tid, cid, true, false, none, none, [], [], [], []⟩
        validated with onboardingCompleted := true } : UserProfile)]).map
          (fun p => p.id) =
        db.map (fun p => p.id) ++ [freshId] := by
      rw [List.map_append]
      rfl
    refine ⟨?_, ?_, ?_⟩
    · unfold pairCount
      rw [List.filter_append, h0]
      simp [assignProfileData]
    · rw [hids]
      refine List.nodup_append.mpr ⟨hnodup, List.nodup_singleton _, ?_⟩
      intro a ha hb
      rw [List.mem_singleton] at hb
      subst hb
      exact hfresh ha
    · intro g hg hgne hmem2
      rw [hids] at hmem2
      rcases List.mem_append.mp hmem2 with hin | hin
      · exact hg hin
      · exact hgne (List.mem_singleton.mp hin)

lemma upsert_ok_spec (val : ProfileData → Except String ProfileData)
    (freshId : Nat) (db : List UserProfile) (tid : String) (cid : Nat)
    (data : ProfileData) (db2 : List UserProfile) (p2 : UserProfile)
    (hnodup : (db.map (fun p => p.id)).Nodup)
    (hcount : pairCount db tid cid ≤ 1)
    (hfresh : freshId ∉ db.map (fun p => p.id))
    (h : upsertProfileForConference val freshId db tid (some cid) data =
      .ok (db2, p2)) :
    pairCount db2 tid cid = 1 ∧ (db2.map (fun p => p.id)).Nodup ∧
    ∀ g, g ∉ db.map (fun p => p.id) → g ≠ freshId →
      g ∉ db2.map (fun p => p.id) := by
  unfold upsertProfileForConference at h
  by_cases htid : tid = ""
  · rw [if_pos htid] at h
    exact absurd h (by simp)
  · rw [if_neg htid] at h
    cases hval : val data with
    | error e =>
      simp only [hval] at h
      exact absurd h (by simp)
    | ok validated =>
      simp only [hval, Except.ok.injEq] at h
      exact upsertCore_spec freshId db tid cid validated db2 p2 hnodup hcount
        hfresh h

/-- Claim C7: for every (telegramId, conferenceId) pair,
upsertProfileForConference keeps at most one profile for the pair: starting
from a well-formed collection holding at most one profile for the pair, a
successful upsert leaves exactly one (updating in place when one exists,
inserting otherwise), and upserting twice sequentially still leaves exactly
one profile for the pair. -/
theorem claim_C7 (val val2 : ProfileData → Except String ProfileData)
    (freshId freshId2 : Nat) (db : List UserProfile) (tid : String) (cid : Nat)
    (data data2 : ProfileData)
    (hnodup : (db.map (fun p => p.id)).Nodup)
    (hcount : pairCount db tid cid ≤ 1)
    (hfresh : freshId ∉ db.map (fun p => p.id))
    (hfresh2 : freshId2 ∉ db.map (fun p => p.id))
    (hne : freshId2 ≠ freshId) :
    (∀ db2 p2, upsertProfileForConference val freshId db tid (some cid) data =
        .ok (db2, p2) → pairCount db2 tid cid = 1) ∧
    (∀ db2 p2 db3 p3,
      upsertProfileForConference val freshId db tid (some cid) data =
        .ok (db2, p2) →
      upsertProfileForConference val2 freshId2 db2 tid (some cid) data2 =
        .ok (db3, p3) →
      pairCount db3 tid cid = 1) := by
  constructor
  · intro db2 p2 h
    exact (upsert_ok_spec val freshId db tid cid data db2 p2 hnodup hcount
      hfresh h).1
  · intro db2 p2 db3 p3 h1 h2
    obtain ⟨hc1, hn1, hg1⟩ := upsert_ok_spec val freshId db tid cid data db2 p2
      hnodup hcount hfresh h1
    exact (upsert_ok_spec val2 freshId2 db2 tid cid data2 db3 p3 hn1
      (by omega) (hg1 freshId2 hfresh2 hne) h2).1

/-- Witness for C7: identity 42 onboards twice into conference 5 starting from
an empty collection; exactly one profile for the pair remains. -/
theorem claim_C7_witness : pairCount [demoUpsertProfile] "42" 5 = 1 :=
  (claim_C7 okProfileValidator okProfileValidator 10 11 [] "42" 5
    emptyProfileData emptyProfileData (by simp) (by simp [pairCount])
    (by simp) (by simp) (by decide)).2
    [demoUpsertProfile] demoUpsertProfile [demoUpsertProfile] demoUpsertProfile
    rfl rfl

/- ============ Claim C10 ============ -/

lemma searchQuery_spec (conference : Conference) (role : Option String)
    (profDb : List UserProfile) (limit : Nat) (p : UserProfile)
    (hp : p ∈ (profDb.filter (fun p =>
      p.conference == conference.id && p.isActive && p.onboardingCompleted &&
        (match role with
         | none => true
         | some r => if r = "" then true else p.roles.contains r))).take limit) :
    p.conference = conference.id ∧ p.isActive = true ∧
    p.onboardingCompleted = true ∧
    ∀ r, role = some r → r ≠ "" → p.roles.contains r = true := by
  have hq := (List.mem_filter.mp (List.mem_of_mem_take hp)).2
  simp only [Bool.and_eq_true, beq_iff_eq] at hq
  obtain ⟨⟨⟨h1, h2⟩, h3⟩, h4⟩ := hq
  refine ⟨h1, h2, h3, ?_⟩
  intro r hrole hr
  rw [hrole] at h4
  dsimp only at h4
  rw [if_neg hr] at h4
  exact h4

/-- Claim C10: searchProfiles returns only profiles of the conference resolved
from the code with isActive and onboardingCompleted set and, when a non-empty
role is given (JS truthiness), containing that role; it returns at most
`limit` profiles (with 20 the declared default); when non-blank free text is
given every returned profile matches the trimmed lowercased text as a
substring of some interests/offerings/lookingFor entry; and the limit is
applied before the free-text filter: with limit 1, a matching profile hidden
behind a non-matching one is dropped even though raising the limit returns it. -/
theorem claim_C10 :
    (∀ confDb profDb code role text limit conf ps,
      searchProfiles confDb profDb code role text limit = .ok (conf, ps) →
        (∀ p ∈ ps, p.conference = conf.id ∧ p.isActive = true ∧
          p.onboardingCompleted = true ∧
          ∀ r, role = some r → r ≠ "" → p.roles.contains r = true) ∧
        ps.length ≤ limit ∧
        (∀ t, text = some t → jsTrim t ≠ "" →
          ∀ p ∈ ps, (p.interests ++ p.offerings ++ p.lookingFor).any
            (fun v => jsIncludes (jsToLower v) (jsToLower (jsTrim t))) = true)) ∧
    (∀ confDb profDb code role text,
      searchProfilesDefaultLimit confDb profDb code role text =
        searchProfiles confDb profDb code role text 20) ∧
    (searchProfiles [demoSearchConf] [demoProfileA, demoProfileB] "c1" none
        (some "ai") 1 = .ok (demoSearchConf, []) ∧
      searchProfiles [demoSearchConf] [demoProfileA, demoProfileB] "c1" none
        (some "ai") 2 = .ok (demoSearchConf, [demoProfileB])) := by
  refine ⟨?_, fun _ _ _ _ _ => rfl, by constructor <;> rfl⟩
  intro confDb profDb code role text limit conf ps h
  unfold searchProfiles at h
  cases hfind : confDb.find? (fun c => c.conferenceCode == code) with
  | none =>
    simp only [hfind] at h
    exact absurd h (by simp)
  | some conference =>
    simp only [hfind] at h
    cases text with
    | none =>
      simp only [Except.ok.injEq, Prod.mk.injEq] at h
      obtain ⟨hconf, hps⟩ := h
      subst hconf; subst hps
      refine ⟨fun p hp => searchQuery_spec conference role profDb limit p hp,
        List.length_take_le _ _, ?_⟩
      intro t ht
      exact absurd ht (by simp)
    | some t =>
      dsimp only at h
      by_cases htr : jsTrim t ≠ ""
      · rw [if_pos htr] at h
        simp only [Except.ok.injEq, Prod.mk.injEq] at h
        obtain ⟨hconf, hps⟩ := h
        subst hconf; subst hps
        refine ⟨?_, ?_, ?_⟩
        · intro p hp
          exact searchQuery_spec conference role profDb limit p
            (List.mem_filter.mp hp).1
        · exact le_trans (List.length_filter_le _ _) (List.length_take_le _ _)
        · intro t2 ht2 htr2 p hp
          have := (List.mem_filter.mp hp).2
          have ht2e : t2 = t := (Option.some.injEq _ _ ▸ ht2).symm
          subst ht2e
          exact this
      · rw [if_neg htr] at h
        simp only [Except.ok.injEq, Prod.mk.injEq] at h
        obtain ⟨hconf, hps⟩ := h
        subst hconf; subst hps
        refine ⟨fun p hp => searchQuery_spec conference role profDb limit p hp,
          List.length_take_le _ _, ?_⟩
        intro t2 ht2 htr2
        have ht2e : t2 = t := (Option.some.injEq _ _ ▸ ht2).symm
        subst ht2e
        exact absurd htr2 htr

/-- Witness for C10: a search with no text filter over one matching profile
returns it within the default-sized limit. -/
theorem claim_C10_witness :
    ([demoProfileB] : List UserProfile).length ≤ 20 :=
  ((claim_C10.1 [demoSearchConf] [demoProfileB] "c1" none none 20
    demoSearchConf [demoProfileB] rfl).2).1

/- ============ Claim C1 ============ -/

lemma voteInPoll_ok_inv {w : String} {poll : Poll} {i : Nat} {p2 : Poll}
    (h : voteInPoll w poll i = .ok p2) :
    poll.isActive = true ∧
    (∀ o ∈ poll.options, o.voters.contains w = false) ∧
    (∃ o ∈ poll.options, (o.id == i) = true) ∧
    p2 = { poll with options := poll.options.map (fun o =>
      if o.id == i then { o with voters := o.voters ++ [w] } else o) } := by
  unfold voteInPoll at h
  by_cases hact : poll.isActive = true
  · rw [if_pos hact] at h
    by_cases hany : poll.options.any (fun o => o.voters.contains w) = true
    · rw [if_pos hany] at h
      exact absurd h (by simp)
    · rw [if_neg hany] at h
      have hanyf : poll.options.any (fun o => o.voters.contains w) = false :=
        Bool.eq_false_iff.mpr hany
      cases hfind : poll.options.find? (fun o => o.id == i) with
      | none =>
        simp only [hfind] at h
        exact absurd h (by simp)
      | some o =>
        simp only [hfind, Except.ok.injEq] at h
        have hfo := List.find?_some hfind
        refine ⟨hact, ?_, ⟨o, List.mem_of_find?_eq_some hfind, hfo⟩, h.symm⟩
        intro o2 ho2
        exact Bool.eq_false_iff.mpr (List.any_eq_false.mp hanyf o2 ho2)
  · rw [if_neg hact] at h
    exact absurd h (by simp)

lemma contains_append_single_eq {w v : String} (l : List String)
    (hwv : w ≠ v) : (l ++ [w]).contains v = l.contains v :=
  contains_append_single l hwv

lemma vote_map_ids (w : String) (i : Nat) (l : List PollOption) :
    (l.map (fun o => if o.id == i then { o with voters := o.voters ++ [w] }
      else o)).map (fun o => o.id) = l.map (fun o => o.id) := by
  rw [List.map_map]
  apply List.map_congr_left
  intro o ho
  by_cases h : (o.id == i) = true
  · simp only [Function.comp_apply, if_pos h]
  · simp only [Function.comp_apply, if_neg h]

lemma filter_vote_self (w : String) (i : Nat) (l : List PollOption)
    (habs : ∀ o ∈ l, o.voters.contains w = false) :
    ((l.map (fun o => if o.id == i then { o with voters := o.voters ++ [w] }
      else o)).filter (fun o => o.voters.contains w)).length =
    (l.filter (fun o => o.id == i)).length := by
  induction l with
  | nil => rfl
  | cons a t ih =>
    have ha := habs a (List.mem_cons_self a t)
    have iht := ih (fun o ho => habs o (List.mem_cons_of_mem a ho))
    by_cases hid : (a.id == i) = true
    · simp only [List.map_cons, List.filter_cons, if_pos hid,
        show ({ a with voters := a.voters ++ [w] } :
          PollOption).voters.contains w = true from contains_append_self a.voters w,
        if_true, List.length_cons, hid]
      omega
    · simp only [List.map_cons, List.filter_cons, if_neg hid, ha,
        Bool.false_eq_true, if_false]
      exact iht

lemma count_id_le_one (i : Nat) (l : List PollOption)
    (h : (l.map (fun o => o.id)).Nodup) :
    (l.filter (fun o => o.id == i)).length ≤ 1 := by
  induction l with
  | nil => simp
  | cons a t ih =>
    simp only [List.map_cons, List.nodup_cons] at h
    obtain ⟨hna, ht⟩ := h
    simp only [List.filter_cons]
    by_cases hid : (a.id == i) = true
    · rw [if_pos hid]
      have h0 : t.filter (fun o => o.id == i) = [] := by
        apply List.filter_eq_nil_iff.mpr
        intro o ho hcon
        have hoe : o.id = a.id := (beq_iff_eq.mp hcon).trans (beq_iff_eq.mp hid).symm
        exact hna (hoe ▸ List.mem_map.mpr ⟨o, ho, rfl⟩)
      rw [h0]
      simp
    · rw [if_neg hid]
      exact ih ht

lemma count_id_eq_one (i : Nat) (l : List PollOption)
    (h : (l.map (fun o => o.id)).Nodup)
    (hex : ∃ o ∈ l, (o.id == i) = true) :
    (l.filter (fun o => o.id == i)).length = 1 := by
  obtain ⟨o, ho, hoid⟩ := hex
  have hle := count_id_le_one i l h
  have hge : 0 < (l.filter (fun o => o.id == i)).length :=
    List.length_pos_of_mem (List.mem_filter.mpr ⟨ho, hoid⟩)
  omega

lemma applyVote_preserves (v : String) (poll : Poll) (att : String × Nat)
    (hids : (poll.options.map (fun o => o.id)).Nodup)
    (hcnt : votedOptionCount v poll ≤ 1) :
    votedOptionCount v (applyVoteAttempt poll att) ≤ 1 ∧
    ((applyVoteAttempt poll att).options.map (fun o => o.id)).Nodup := by
  unfold applyVoteAttempt
  cases hv : voteInPoll att.1 poll att.2 with
  | error e => exact ⟨hcnt, hids⟩
  | ok p2 =>
    obtain ⟨hact, habs, hex, hp⟩ := voteInPoll_ok_inv hv
    subst hp
    constructor
    · unfold votedOptionCount
      dsimp only
      by_cases hwv : att.1 = v
      · subst hwv
        rw [filter_vote_self att.1 att.2 poll.options habs]
        exact count_id_le_one att.2 poll.options hids
      · rw [length_filter_map_congr ?hcong]
        case hcong =>
          intro o ho
          by_cases hid : (o.id == att.2) = true
          · rw [if_pos hid]
            exact contains_append_single o.voters hwv
          · rw [if_neg hid]
        unfold votedOptionCount at hcnt
        exact hcnt
    · dsimp only
      rw [vote_map_ids]
      exact hids

lemma runVoteAttempts_le_one (v : String) (atts : List (String × Nat)) :
    ∀ poll : Poll, (poll.options.map (fun o => o.id)).Nodup →
      votedOptionCount v poll ≤ 1 →
      votedOptionCount v (runVoteAttempts poll atts) ≤ 1 := by
  induction atts with
  | nil => intro poll _ h; exact h
  | cons a t ih =>
    intro poll hids hcnt
    have hstep := applyVote_preserves v poll a hids hcnt
    exact ih (applyVoteAttempt poll a) hstep.2 hstep.1

lemma vote_self_again {v : String} {poll p1 : Poll} {i : Nat}
    (h : voteInPoll v poll i = .ok p1) (j : Nat) :
    voteInPoll v p1 j = .error "ALREADY_VOTED" ∧
    applyVoteAttempt p1 (v, j) = p1 := by
  obtain ⟨hact, habs, ⟨o, ho, hoid⟩, hp⟩ := voteInPoll_ok_inv h
  have hp1act : p1.isActive = true := by rw [hp]; exact hact
  have hvmem : p1.options.any (fun o => o.voters.contains v) = true := by
    rw [hp]
    apply List.any_eq_true.mpr
    refine ⟨{ o with voters := o.voters ++ [v] }, ?_, ?_⟩
    · exact List.mem_map.mpr ⟨o, ho, by rw [if_pos hoid]⟩
    · exact contains_append_self o.voters v
  have herr : voteInPoll v p1 j = .error "ALREADY_VOTED" := by
    unfold voteInPoll
    rw [if_pos hp1act, if_pos hvmem]
  refine ⟨herr, ?_⟩
  unfold applyVoteAttempt
  simp only [herr]

/-- Claim C1: on a poll with distinct option ids where identity V appears in
at most one option's voter set, any sequence of vote attempts leaves V in at
most one option's voter set; and after a successful vote by V, a second vote
attempt by V on any option fails with ALREADY_VOTED, leaving the poll — in
particular every option's tally — unchanged, V being recorded on exactly one
option. The vote operation is modelled from the spec (4.5); the vote:poll
action invokes it and maps ALREADY_VOTED to the already-voted reply. -/
theorem claim_C1 (v : String) (poll : Poll)
    (hids : (poll.options.map (fun o => o.id)).Nodup)
    (hcount : votedOptionCount v poll ≤ 1) :
    (∀ atts, votedOptionCount v (runVoteAttempts poll atts) ≤ 1) ∧
    (∀ i j p1, voteInPoll v poll i = .ok p1 →
      voteInPoll v p1 j = .error "ALREADY_VOTED" ∧
      applyVoteAttempt p1 (v, j) = p1 ∧
      votedOptionCount v p1 = 1) := by
  constructor
  · intro atts
    exact runVoteAttempts_le_one v atts poll hids hcount
  · intro i j p1 h
    obtain ⟨herr, happ⟩ := vote_self_again h j
    refine ⟨herr, happ, ?_⟩
    obtain ⟨hact, habs, hex, hp⟩ := voteInPoll_ok_inv h
    subst hp
    unfold votedOptionCount
    dsimp only
    rw [filter_vote_self v i poll.options habs]
    exact count_id_eq_one i poll.options hids hex

/-- Witness for C1: the spec scenario — voter X votes Lunch then Dinner on
the two-option poll; X ends on at most one option and the second vote fails
with ALREADY_VOTED. -/
theorem claim_C1_witness :
    votedOptionCount "X" (runVoteAttempts lunchPoll [("X", 0), ("X", 1)]) ≤ 1 ∧
    voteInPoll "X" lunchPollVoted 1 = .error "ALREADY_VOTED" :=
  ⟨(claim_C1 "X" lunchPoll (by decide) (by decide)).1 [("X", 0), ("X", 1)],
   ((claim_C1 "X" lunchPoll (by decide) (by decide)).2 0 1 lunchPollVoted
     rfl).1⟩

end SocialConnection
